import Mathlib

/-!
# Verification of the mchplnet LNet frame codec and scope services

Shallow embedding of `src/mchplnet` (X2Cscope/mchplnet): the LNet frame
codec (`lnetframe.py`), the scope model (`services/scope.py`), the RAM and
device-info services, and the orchestrator (`lnet.py`).

Conventions:
* A Python `list` of byte values / of two-digit hex strings is modelled as
  `List Nat` (the wire encoding used by the interfaces is a fixed two-digit
  lowercase hex string per byte, so `int(x, 16)` and comparison against
  `"55"` / `"02"` are byte-value operations).
* Python exceptions are modelled with `Except PyErr`; a Python function
  that can `return None` or a value returns an `Option` inside the `Except`.
* Mutating methods are modelled as state-passing functions; where a method
  mutates state and then raises, the error value carries the state at the
  time of the raise.
-/

/-- Python exception kinds raised by the embedded code. -/
inductive PyErr where
  | attributeError
  | indexError
  | keyError
  | overflowError
  | runtimeError
  | valueError
  deriving DecidableEq, Repr

instance {ε α : Type} [DecidableEq ε] [DecidableEq α] : DecidableEq (Except ε α) :=
  fun x y =>
    match x, y with
    | .error a, .error b => decidable_of_iff (a = b) (by simp)
    | .ok a, .ok b => decidable_of_iff (a = b) (by simp)
    | .error _, .ok _ => .isFalse (by simp)
    | .ok _, .error _ => .isFalse (by simp)

/-- The two reserved byte values of the LNet protocol (`0x02` and `0x55 = 85`),
as tested by `LNetFrame._skip_reserved_bytes` and `LNetFrame.remove_fill_byte`. -/
def reservedByte (b : Nat) : Bool :=
  b == 2 || b == 85

/-- Python `list.insert(idx, v)`: insert before position `idx`, clamping to the
end of the list (Python semantics). -/
def pyInsert (l : List Nat) (idx : Nat) (v : Nat) : List Nat :=
  l.take idx ++ v :: l.drop idx

/-- The `while` loop of `LNetFrame._skip_reserved_bytes`: starting at index `i`,
whenever the byte at `i` is reserved, `self.data.insert(i + 1, 0)` and
`loop_length += 1`; in either case `i += 1`.  `loop_length` always equals the
current list length, so the loop condition is `i < data.length`. -/
def skipLoop (data : List Nat) (i : Nat) : List Nat :=
  if h : i < data.length then
    if reservedByte data[i] then
      skipLoop (pyInsert data (i + 1) 0) (i + 1)
    else
      skipLoop data (i + 1)
  else
    data
termination_by (((data.drop i).countP (fun b => reservedByte b)), data.length - i)
decreasing_by
  · apply Prod.Lex.left
    have hd : data.drop i = data[i] :: data.drop (i + 1) := List.drop_eq_getElem_cons h
    have hins : (pyInsert data (i + 1) 0).drop (i + 1) = 0 :: data.drop (i + 1) := by
      unfold pyInsert
      rw [List.drop_append_of_le_length (by simp; omega)]
      simp [List.drop_take, Nat.sub_self]
    rw [hins, hd]
    simp only [List.countP_cons]
    simp_all [reservedByte]
  · apply Prod.Lex.right'
    · have hd : data.drop i = data[i] :: data.drop (i + 1) := List.drop_eq_getElem_cons h
      rw [hd]
      simp only [List.countP_cons]
      simp_all
    · omega

/-- `LNetFrame._skip_reserved_bytes`: run the insertion loop from index 1. -/
def skip_reserved_bytes (data : List Nat) : List Nat :=
  skipLoop data 1

/-- The `while` loop of `LNetFrame.remove_fill_byte`: starting at index `z`,
whenever the byte at `z` is reserved, `received.pop(z + 1)` (which raises
`IndexError` when `z + 1` is past the end) and `loop_value -= 1`; in either
case `z += 1`.  `loop_value` always equals the current list length. -/
def removeLoop (received : List Nat) (z : Nat) : Except PyErr (List Nat) :=
  if h : z < received.length then
    if reservedByte received[z] then
      -- `received.pop(z + 1)`: IndexError when `z + 1` is past the end,
      -- otherwise delete the element at index `z + 1`.
      if z + 1 < received.length then
        removeLoop (received.take (z + 1) ++ received.drop (z + 2)) (z + 1)
      else
        .error .indexError
    else
      removeLoop received (z + 1)
  else
    .ok received
termination_by received.length - z
decreasing_by
  · simp only [List.length_append, List.length_take, List.length_drop]
    omega
  · omega

/-- `LNetFrame.remove_fill_byte`: run the deletion loop from index 1. -/
def remove_fill_byte (received : List Nat) : Except PyErr (List Nat) :=
  removeLoop received 1

/-- Structural form of the insertion pass: a `0x00` is inserted immediately
after every reserved byte, and the scan continues after the inserted byte. -/
def stuffFrom : List Nat → List Nat
  | [] => []
  | b :: rest =>
    if reservedByte b then b :: 0 :: stuffFrom rest
    else b :: stuffFrom rest

/-- Structural form of the deletion pass: after every reserved byte the
following byte is deleted (raising `IndexError` when there is none), and the
scan continues after the deleted position. -/
def unstuffFrom : List Nat → Except PyErr (List Nat)
  | [] => .ok []
  | b :: rest =>
    if reservedByte b then
      match rest with
      | [] => .error .indexError
      | _ :: rest2 => Except.map (fun r => b :: r) (unstuffFrom rest2)
    else
      Except.map (fun r => b :: r) (unstuffFrom rest)

/-- `LNetFrame._crc_checksum`: sum the list, reduce modulo 256, and remap the
two reserved collision values (`0x55 → 0xAA`, `0x02 → 0xFD`). -/
def crc_checksum (list_crc : List Nat) : Nat :=
  let crc_calculation := list_crc.sum % 256
  if crc_calculation = 85 then 170
  else if crc_calculation = 2 then 253
  else crc_calculation

/-- `LNetFrame.serialize`: prepend `[SYN = 0x55, SIZE = len(data), NODE = 1]`,
append the checksum of header plus data, then run the fill-byte insertion
pass over the whole buffer (from index 1, checksum byte included). -/
def LNetFrame.serialize (data : List Nat) : List Nat :=
  let frame := 85 :: data.length :: 1 :: data
  skip_reserved_bytes (frame ++ [crc_checksum frame])

/-- The error dictionary of `LNetFrame.error_id`. -/
def errorTable : List (Nat × String) :=
  [(0, "No Error"),
   (19, "Checksum Error"),
   (20, "Format Error"),
   (21, "Size too large"),
   (33, "Service not available"),
   (34, "Invalid DSP state"),
   (48, "Flash write error"),
   (49, "Flash write protect error"),
   (64, "Invalid Parameter ID"),
   (65, "Invalid Block ID"),
   (66, "Parameter Limit error"),
   (67, "Parameter table not initialized"),
   (80, "Power-on Error")]

/-- `LNetFrame.error_id`: dictionary lookup of the error description.  An
unknown code raises `KeyError` (the surrounding `except IndexError` clause
does not catch a `KeyError`). -/
def error_id (e : Nat) : Except PyErr String :=
  match errorTable.find? (fun p => p.1 == e) with
  | some p => .ok p.2
  | none => .error .keyError

/-- `LNetFrame._crc_check`: drop the final (CRC) byte and recompute the
checksum of the rest. -/
def crc_check (received : List Nat) : Nat :=
  crc_checksum received.dropLast

/-- `LNetFrame.frame_integrity`: compare the recomputed checksum with the last
byte (`self.received[-1]`, IndexError on an empty frame). -/
def frame_integrity (received : List Nat) : Except PyErr Bool :=
  match received.getLast? with
  | none => .error .indexError
  | some last => .ok (crc_check received == last)

/-- `LNetFrame._check_id`: the byte at index 3 must equal the service id and
the byte at index 4 must be 0; a non-zero error code is looked up in the error
dictionary (`logging.error(self.error_id(...))`) and the method returns
`False`.  Index accesses out of range raise `IndexError`; an unknown non-zero
error code raises `KeyError` from the lookup inside the logging call. -/
def check_id (service_id : Nat) (received : List Nat) : Except PyErr Bool :=
  match received[3]? with
  | none => .error .indexError
  | some s =>
    if s == service_id then
      match received[4]? with
      | none => .error .indexError
      | some e =>
        if e == 0 then do
          let _ ← error_id e
          pure true
        else do
          let _ ← error_id e
          pure false
    else
      .ok false

/-- `LNetFrame.deserialize`: store the received frame, remove fill bytes, and
only when both the integrity check and the service-id/error-code check pass,
hand the buffer to the service's own `_deserialize`; otherwise fall through
and return `None`. -/
def LNetFrame.deserialize {α : Type} (service_id : Nat)
    (deserialize_impl : List Nat → Except PyErr (Option α))
    (received : List Nat) : Except PyErr (Option α) := do
  let r ← remove_fill_byte received
  let ok1 ← frame_integrity r
  if ok1 then
    let ok2 ← check_id service_id r
    if ok2 then deserialize_impl r else pure none
  else
    pure none

/-- Little-endian bytes of `n`, exactly `length` bytes (`n` taken modulo
`256 ^ length`). -/
def natLeBytes : Nat → Nat → List Nat
  | 0, _ => []
  | l + 1, n => n % 256 :: natLeBytes l (n / 256)

/-- Python `n.to_bytes(length, byteorder="little")` (unsigned):
`OverflowError` when `n` does not fit. -/
def to_bytes_unsigned (length : Nat) (n : Nat) : Except PyErr (List Nat) :=
  if n < 2 ^ (8 * length) then .ok (natLeBytes length n)
  else .error .overflowError

/-- Python `n.to_bytes(length, byteorder="little", signed=True)`:
`OverflowError` outside the two's-complement range, otherwise the
little-endian bytes of `n mod 2 ^ (8 * length)`. -/
def to_bytes_signed (length : Nat) (n : Int) : Except PyErr (List Nat) :=
  if length = 0 then
    if n = 0 then .ok [] else .error .overflowError
  else if -((2 : Int) ^ (8 * length - 1)) ≤ n ∧ n < (2 : Int) ^ (8 * length - 1) then
    .ok (natLeBytes length (n % ((2 : Int) ^ (8 * length))).toNat)
  else .error .overflowError

/-- `FrameGetRam._get_data` (service id 9): the address in `uc_width`
little-endian bytes, then the read size and the data-type tag. -/
def FrameGetRam.get_data (address read_Size value_dataType uc_width : Nat) :
    Except PyErr (List Nat) :=
  Except.map (fun byte_address => 9 :: byte_address ++ [read_Size, value_dataType])
    (to_bytes_unsigned uc_width address)

/-- `FrameGetRam._deserialize`: reject frames shorter than 2 bytes and frames
whose declared size (byte 1) is below 2 or above `len - 4` with `ValueError`;
otherwise return the `size - 2` data bytes starting at offset 5.  (In Python
`len(received) - 4` can be negative; any declared size `≥ 2` is then also
greater than the truncated value 0, so the `Nat` subtraction agrees.) -/
def FrameGetRam.deserialize_impl (received : List Nat) :
    Except PyErr (Option (List Nat)) :=
  if h : received.length < 2 then .error .valueError
  else
    let size_received := received[1]
    if size_received < 2 ∨ size_received > received.length - 4 then .error .valueError
    else .ok (some ((received.drop 5).take (size_received - 2)))

/-- `FramePutRam._get_data` (service id 10): the address in `value_dataType`
(the stored interface width) little-endian bytes, then the size and the raw
value bytes. -/
def FramePutRam.get_data (address value_dataType size : Nat) (user_value : List Nat) :
    Except PyErr (List Nat) :=
  Except.map (fun byte_address => 10 :: byte_address ++ size :: user_value)
    (to_bytes_unsigned value_dataType address)

/-- `FramePutRam._deserialize`: read the status byte `received[-2]`
(IndexError when the frame has fewer than 2 entries); `return` (i.e. `None`)
when it is non-zero, and otherwise return `self.error_id(0)`. -/
def FramePutRam.deserialize_impl (received : List Nat) :
    Except PyErr (Option String) :=
  if h : received.length < 2 then .error .indexError
  else
    let data_received := received[received.length - 2]
    if data_received ≠ 0 then .ok none
    else Except.map (fun d => some d) (error_id data_received)

/-- `DeviceInfo` as consumed by `LNet.get_ram` / `LNet.put_ram`: only the
`uc_width` field is read by those methods. -/
structure DeviceInfo where
  uc_width : Nat
  deriving DecidableEq, Repr

/-- `LNet.get_ram` (`src/mchplnet/lnet.py`): `bytes_to_read = data_type`; the
statement `RuntimeError("Device width is not set...")` lacks a `raise`, so the
constructed exception is discarded and execution continues to
`self.device_info.uc_width`, which raises `AttributeError` when `device_info`
is `None`.  The transport exchange `self._read_data` is modelled by the
`transport` function. -/
def LNet.get_ram (device_info : Option DeviceInfo) (transport : List Nat → List Nat)
    (address data_type : Nat) : Except PyErr (Option (List Nat)) :=
  let bytes_to_read := data_type
  match device_info with
  | none => .error .attributeError
  | some d => do
    let data ← FrameGetRam.get_data address data_type bytes_to_read d.uc_width
    let response := transport (LNetFrame.serialize data)
    LNetFrame.deserialize 9 FrameGetRam.deserialize_impl response

/-- `LNet.put_ram` (`src/mchplnet/lnet.py`): same missing `raise` as
`get_ram`; when `device_info` is `None` the dereference
`self.device_info.uc_width` raises `AttributeError`. -/
def LNet.put_ram (device_info : Option DeviceInfo) (transport : List Nat → List Nat)
    (address size : Nat) (value : List Nat) : Except PyErr (Option String) :=
  match device_info with
  | none => .error .attributeError
  | some d => do
    let data ← FramePutRam.get_data address d.uc_width size value
    let response := transport (LNetFrame.serialize data)
    LNetFrame.deserialize 10 FramePutRam.deserialize_impl response

/-- Lowercase hexadecimal digit character of `d < 16`, as produced by Python
`hex` (`Nat.digitChar` yields the same lowercase digits). -/
def hexDigitChar (d : Nat) : Char :=
  Nat.digitChar d

/-- Minimal hex digit string of `n` (empty for 0); `fuel ≥ n` suffices since
the argument shrinks by a factor of 16 each step. -/
def natToHexAux : Nat → Nat → List Char
  | 0, _ => []
  | fuel + 1, n =>
    if n = 0 then [] else natToHexAux fuel (n / 16) ++ [hexDigitChar (n % 16)]

/-- Python `hex(n)` for `n ≥ 0`: `"0x"` followed by the minimal lowercase hex
digits — no zero padding. -/
def pyHex (n : Nat) : String :=
  ⟨'0' :: 'x' :: (if n = 0 then ['0'] else natToHexAux (n + 1) n)⟩

/-- The keys of the `processor_ids_16_bit` dictionary of
`FrameDeviceInfo._Processor_id`. -/
def processor_ids_16_bit : List String :=
  ["0x8210", "0x8230", "0x0221", "0x0222", "0x0223", "0x0224", "0x0225",
   "0x0226", "0x0228", "0x0231", "0x0232", "0x0233", "0x0234", "0x0235",
   "0x0236", "0x0237"]

/-- The keys of the `processor_ids_32_bit` dictionary of
`FrameDeviceInfo._Processor_id`. -/
def processor_ids_32_bit : List String :=
  ["0x8220", "0x8320", "0x8310", "0x0241", "0x0251"]

/-- `FrameDeviceInfo._Processor_id`: combine the two processor-id bytes
`received[10]` (low) and `received[11]` (high) as `hex((high << 8) | low)` —
a *string* — and test membership among the dictionary keys; ids in the 16-bit
table give width 2, ids in the 32-bit table give width 4, anything else gives
`None`. -/
def FrameDeviceInfo.Processor_id (value1 value2 : Nat) : Option Nat :=
  let result := pyHex ((value2 <<< 8) ||| value1)
  if processor_ids_16_bit.contains result then some 2
  else if processor_ids_32_bit.contains result then some 4
  else none

/-- `ScopeChannel` of `src/mchplnet/services/scope.py` (field defaults as in
the dataclass). -/
structure ScopeChannel where
  name : String
  source_location : Nat
  data_type_size : Nat
  source_type : Nat := 0
  is_integer : Bool := false
  is_signed : Bool := true
  is_enable : Bool := true
  offset : Nat := 0
  deriving DecidableEq, Repr

/-- `ScopeTrigger` of `src/mchplnet/services/scope.py`: the default instance
`ScopeTrigger()` has `channel = None`. -/
structure ScopeTrigger where
  channel : Option ScopeChannel := none
  trigger_level : Int := 0
  trigger_delay : Int := 0
  trigger_edge : Nat := 1
  trigger_mode : Nat := 0
  deriving DecidableEq, Repr

/-- `ScopeSetup` of `src/mchplnet/services/scope.py`.  The insertion-ordered
`Dict[str, ScopeChannel]` is modelled as an association list in insertion
order.  (The `scope_data` attribute is not read by any method modelled here
and is omitted.) -/
structure ScopeSetup where
  scope_state : Nat := 1
  sample_time_factor : Nat := 1
  channels : List (String × ScopeChannel) := []
  scope_trigger : ScopeTrigger := {}
  deriving DecidableEq, Repr

/-- Python `name in self.channels` on the channel dictionary. -/
def dictContains (d : List (String × ScopeChannel)) (k : String) : Bool :=
  d.any (fun p => p.1 == k)

/-- `ScopeSetup.add_channel`: a new name is appended (Python dict insertion
order) unless `len(self.channels) > 8`, in which case `-1` is returned before
any mutation; when `trigger` is set, `reset_trigger()` installs a fresh
`ScopeTrigger()` and its `channel` is set. -/
def ScopeSetup.add_channel (s : ScopeSetup) (channel : ScopeChannel)
    (trigger : Bool) : ScopeSetup × Int :=
  if ¬ dictContains s.channels channel.name then
    if s.channels.length > 8 then
      (s, -1)
    else
      let s1 := { s with channels := s.channels ++ [(channel.name, channel)] }
      let s2 := if trigger then { s1 with scope_trigger := { channel := some channel } } else s1
      (s2, (s2.channels.length : Int))
  else
    let s2 := if trigger then { s with scope_trigger := { channel := some channel } } else s
    (s2, (s2.channels.length : Int))

/-- `ScopeSetup.remove_channel`: when the name is present the channel is
popped from the dictionary first; the subsequent check
`self.scope_trigger.channel.name == channel_name` raises `AttributeError`
when the trigger holds no channel (`channel = None`) — with the pop already
applied.  The error value carries the state at the time of the raise. -/
def ScopeSetup.remove_channel (s : ScopeSetup) (channel_name : String) :
    Except (PyErr × ScopeSetup) ScopeSetup :=
  if dictContains s.channels channel_name then
    let s1 := { s with channels := s.channels.eraseP (fun p => p.1 == channel_name) }
    match s1.scope_trigger.channel with
    | none => .error (.attributeError, s1)
    | some c =>
      if c.name == channel_name then .ok { s1 with scope_trigger := {} }
      else .ok s1
  else
    .ok s

/-- `ScopeSetup.get_dataset_size`: the sum of `data_type_size` over **all**
channels in the dictionary (`self.channels.values()`, no `is_enable`
filter). -/
def ScopeSetup.get_dataset_size (s : ScopeSetup) : Nat :=
  (s.channels.map (fun p => p.2.data_type_size)).sum

/-- `ScopeSetup._trigger_level_to_bytes`: the trigger level in exactly the
trigger channel's byte width, little-endian signed; `AttributeError` when the
trigger holds no channel. -/
def ScopeSetup.trigger_level_to_bytes (s : ScopeSetup) : Except PyErr (List Nat) :=
  match s.scope_trigger.channel with
  | none => .error .attributeError
  | some c => to_bytes_signed c.data_type_size s.scope_trigger.trigger_level

/-- `ScopeSetup._trigger_delay_to_bytes`:
`sample_number = trigger_delay * get_dataset_size()`, encoded as 4 bytes
little-endian signed. -/
def ScopeSetup.trigger_delay_to_bytes (s : ScopeSetup) : Except PyErr (List Nat) :=
  to_bytes_signed 4 (s.scope_trigger.trigger_delay * (s.get_dataset_size : Int))

/-- `ScopeSetup._get_trigger_data_type`:
`0x80 | (0x20 if signed) | (0x10 if not integer) | data_type_size`;
`AttributeError` when the trigger holds no channel. -/
def ScopeSetup.get_trigger_data_type (s : ScopeSetup) : Except PyErr Nat :=
  match s.scope_trigger.channel with
  | none => .error .attributeError
  | some c =>
    .ok (128 + (if c.is_signed then 32 else 0) + (if c.is_integer then 0 else 16)
         + c.data_type_size)

/-- `ScopeSetup._get_scope_trigger_buffer`: data-type byte, trigger channel
source type and 4 location bytes, the level bytes, the delay bytes, then edge
and mode.  The first element already dereferences `scope_trigger.channel`, so
an unset trigger channel raises `AttributeError`. -/
def ScopeSetup.get_scope_trigger_buffer (s : ScopeSetup) : Except PyErr (List Nat) :=
  match s.scope_trigger.channel with
  | none => .error .attributeError
  | some c => do
    let tdt ← s.get_trigger_data_type
    let lvl ← s.trigger_level_to_bytes
    let dly ← s.trigger_delay_to_bytes
    pure ([tdt, c.source_type,
           c.source_location &&& 255, (c.source_location >>> 8) &&& 255,
           (c.source_location >>> 16) &&& 255, (c.source_location >>> 24) &&& 255]
          ++ lvl ++ dly
          ++ [s.scope_trigger.trigger_edge, s.scope_trigger.trigger_mode])

/-- The per-channel loop of `ScopeSetup.get_buffer`: disabled channels are
skipped; each enabled channel contributes source type, 4 little-endian
location bytes and the data-type size. -/
def channelsBuffer : List (String × ScopeChannel) → List Nat
  | [] => []
  | (_, channel) :: rest =>
    if channel.is_enable then
      channel.source_type :: (channel.source_location &&& 255)
        :: ((channel.source_location >>> 8) &&& 255)
        :: ((channel.source_location >>> 16) &&& 255)
        :: ((channel.source_location >>> 24) &&& 255)
        :: channel.data_type_size :: channelsBuffer rest
    else
      channelsBuffer rest

/-- `ScopeSetup.get_buffer`: empty list when no channels; otherwise scope
state, channel count, the sample-time factor in 2 little-endian bytes, the
enabled channel blocks, then the trigger block. -/
def ScopeSetup.get_buffer (s : ScopeSetup) : Except PyErr (List Nat) :=
  if s.channels.isEmpty then .ok []
  else do
    let trig ← s.get_scope_trigger_buffer
    pure ([s.scope_state, s.channels.length,
           s.sample_time_factor &&& 255, (s.sample_time_factor >>> 8) &&& 255]
          ++ channelsBuffer s.channels ++ trig)

/-- Spec-side definition, for comparison only (claim C8 wording): the sum of
the byte widths of exactly the **enabled** channels. -/
def enabledDatasetSizeSpec (s : ScopeSetup) : Nat :=
  ((s.channels.filter (fun p => p.2.is_enable)).map (fun p => p.2.data_type_size)).sum

/-- A sequence of `add_channel` calls applied in order. -/
def applyAddChannels (s : ScopeSetup) (calls : List (ScopeChannel × Bool)) : ScopeSetup :=
  calls.foldl (fun st c => (st.add_channel c.1 c.2).1) s

/-- Transport events observable by the mock interface of
`src/tests/test_thread_safety.py`: each `write` / `read` call is an interval
delimited by a start and an end event, tagged with the calling thread. -/
inductive TransportEvt where
  | writeStart (tid : Nat)
  | writeEnd (tid : Nat)
  | readStart (tid : Nat)
  | readEnd (tid : Nat)
  deriving DecidableEq, Repr

/-- The transport events of one `LNet._read_data(frame)` call on thread `tid`
(`src/mchplnet/lnet.py`): `self.interface.write(frame)` then
`self.interface.read()`, with **no** lock acquisition or release anywhere in
the method. -/
def read_data_events (tid : Nat) : List TransportEvt :=
  [.writeStart tid, .writeEnd tid, .readStart tid, .readEnd tid]

/-- Arbitrary interleaving of two threads' event sequences.  Because
`_read_data` performs no synchronization, every interleaving of the two
threads' transport events is a possible schedule. -/
inductive IsInterleaving : List TransportEvt → List TransportEvt → List TransportEvt → Prop
  | nil : IsInterleaving [] [] []
  | left {x : TransportEvt} {xs ys zs : List TransportEvt} :
      IsInterleaving xs ys zs → IsInterleaving (x :: xs) ys (x :: zs)
  | right {y : TransportEvt} {xs ys zs : List TransportEvt} :
      IsInterleaving xs ys zs → IsInterleaving xs (y :: ys) (y :: zs)

def isStartEvt : TransportEvt → Bool
  | .writeStart _ => true
  | .readStart _ => true
  | _ => false

def isEndEvt : TransportEvt → Bool
  | .writeEnd _ => true
  | .readEnd _ => true
  | _ => false

/-- `concurrent_access_count` of the mock interface after a trace prefix:
incremented at every operation start, decremented at every end. -/
def inFlight (trace : List TransportEvt) : Nat :=
  trace.countP isStartEvt - trace.countP isEndEvt

/-- `max_concurrent_access` of the mock interface over a whole trace: the
maximum in-flight count over all prefixes. -/
def maxConcurrent (trace : List TransportEvt) : Nat :=
  ((List.range (trace.length + 1)).map (fun k => inFlight (trace.take k))).foldr max 0

/-- A channel with the given name and a 2-byte data type at location 0, used
as a concrete test fixture. -/
def chanNamed (n : String) : ScopeChannel :=
  { name := n, source_location := 0, data_type_size := 2 }

/-- A `ScopeSetup` already holding 8 distinct channels. -/
def setupWith8 : ScopeSetup :=
  { channels := ["c1", "c2", "c3", "c4", "c5", "c6", "c7", "c8"].map
      (fun n => (n, chanNamed n)) }

/-- A `ScopeSetup` already holding 9 distinct channels. -/
def setupWith9 : ScopeSetup :=
  { channels := ["c1", "c2", "c3", "c4", "c5", "c6", "c7", "c8", "c9"].map
      (fun n => (n, chanNamed n)) }

/-- Enabled 2-byte channel at location 0. -/
def chA : ScopeChannel := { name := "a", source_location := 0, data_type_size := 2 }

/-- Disabled 4-byte channel at location 0. -/
def chB : ScopeChannel :=
  { name := "b", source_location := 0, data_type_size := 4, is_enable := false }

/-- Setup with one enabled and one disabled channel, triggered on the enabled
one with logical delay count 1. -/
def setupAB : ScopeSetup :=
  { channels := [("a", chA), ("b", chB)],
    scope_trigger := { channel := some chA, trigger_delay := 1 } }

/-- Setup with a single channel `"x"` and the default (empty) trigger. -/
def setupX : ScopeSetup :=
  { channels := [("x", chanNamed "x")] }

/-- A schedule of two concurrent `_read_data` transactions in which both
writes are issued before either read: both operations are in flight at
once. -/
def raceTrace : List TransportEvt :=
  [.writeStart 0, .writeStart 1, .writeEnd 0, .writeEnd 1,
   .readStart 0, .readEnd 0, .readStart 1, .readEnd 1]

/-! ## Supporting lemmas -/

theorem pyInsert_drop_self (data : List Nat) (i : Nat) (v : Nat) (h : i ≤ data.length) :
    (pyInsert data i v).drop i = v :: data.drop i := by
  unfold pyInsert
  rw [List.drop_append_of_le_length (by simpa using h)]
  simp [List.drop_take, Nat.sub_self]

theorem pyInsert_take_self (data : List Nat) (i : Nat) (v : Nat) (h : i ≤ data.length) :
    (pyInsert data i v).take i = data.take i := by
  unfold pyInsert
  rw [List.take_append_of_le_length (by simpa using h)]
  simp [List.take_take]

theorem unstuffFrom_cons_neg {b : Nat} (rest : List Nat) (hb : reservedByte b = false) :
    unstuffFrom (b :: rest) = Except.map (fun r => b :: r) (unstuffFrom rest) := by
  cases rest <;> simp [unstuffFrom, hb]

theorem unstuffFrom_cons_pos {b : Nat} (c : Nat) (rest : List Nat)
    (hb : reservedByte b = true) :
    unstuffFrom (b :: c :: rest) = Except.map (fun r => b :: r) (unstuffFrom rest) := by
  simp [unstuffFrom, hb]

theorem unstuffFrom_singleton_pos {b : Nat} (hb : reservedByte b = true) :
    unstuffFrom [b] = .error .indexError := by
  simp [unstuffFrom, hb]

theorem take_succ_append {α : Type} (l : List α) :
    ∀ (i : Nat) (h : i < l.length) (xs : List α),
      l.take (i + 1) ++ xs = l.take i ++ l[i] :: xs := by
  induction l with
  | nil => intro i h xs; simp at h
  | cons a t ih =>
    intro i h xs
    cases i with
    | zero => simp
    | succ n =>
      have h' : n < t.length := by simpa using h
      simp only [List.take_succ_cons, List.getElem_cons_succ, List.cons_append]
      rw [ih n h' xs]

/-- The index-based insertion loop computes the structural pass on the part of
the list from index `i` on, keeping the first `i` bytes unchanged. -/
theorem skipLoop_eq (data : List Nat) (i : Nat) :
    skipLoop data i = data.take i ++ stuffFrom (data.drop i) := by
  induction data, i using skipLoop.induct with
  | case1 data i h hres ih =>
    rw [skipLoop, dif_pos h, if_pos hres, ih]
    rw [pyInsert_take_self data (i + 1) 0 (by omega),
        pyInsert_drop_self data (i + 1) 0 (by omega)]
    rw [List.drop_eq_getElem_cons h]
    have h0 : stuffFrom (0 :: data.drop (i + 1)) = 0 :: stuffFrom (data.drop (i + 1)) := by
      rw [stuffFrom, if_neg (by simp [reservedByte])]
    rw [h0, stuffFrom, if_pos hres, take_succ_append data i h]
  | case2 data i h hres ih =>
    rw [skipLoop, dif_pos h, if_neg hres, ih]
    rw [List.drop_eq_getElem_cons h, stuffFrom, if_neg hres, take_succ_append data i h]
  | case3 data i h =>
    rw [skipLoop, dif_neg h]
    rw [List.take_of_length_le (by omega), List.drop_of_length_le (by omega)]
    simp [stuffFrom]

/-- The index-based deletion loop computes the structural pass on the part of
the list from index `z` on, keeping the first `z` bytes unchanged. -/
theorem removeLoop_eq (received : List Nat) (z : Nat) :
    removeLoop received z =
      Except.map (fun r => received.take z ++ r) (unstuffFrom (received.drop z)) := by
  induction received, z using removeLoop.induct with
  | case1 received z h hres hlt ih =>
    rw [removeLoop, dif_pos h, if_pos hres, if_pos hlt, ih]
    have htk : (received.take (z + 1) ++ received.drop (z + 2)).take (z + 1)
        = received.take (z + 1) := List.take_left' (by simp; omega)
    have hdr : (received.take (z + 1) ++ received.drop (z + 2)).drop (z + 1)
        = received.drop (z + 2) := List.drop_left' (by simp; omega)
    rw [htk, hdr]
    rw [List.drop_eq_getElem_cons h, List.drop_eq_getElem_cons hlt,
        unstuffFrom_cons_pos received[z + 1] (received.drop (z + 2)) hres]
    cases hs : unstuffFrom (received.drop (z + 2)) with
    | error e => simp [hs, Except.map]
    | ok r' =>
      simp only [hs, Except.map]
      rw [take_succ_append received z h]
  | case2 received z h hres hge =>
    rw [removeLoop, dif_pos h, if_pos hres, if_neg hge]
    rw [List.drop_eq_getElem_cons h]
    have hnil : received.drop (z + 1) = [] := List.drop_of_length_le (by omega)
    rw [hnil, unstuffFrom_singleton_pos hres]
    rfl
  | case3 received z h hres ih =>
    rw [removeLoop, dif_pos h, if_neg hres, ih]
    have hres' : reservedByte received[z] = false := by simpa using hres
    rw [List.drop_eq_getElem_cons h, unstuffFrom_cons_neg _ hres']
    cases hs : unstuffFrom (received.drop (z + 1)) with
    | error e => simp [hs, Except.map]
    | ok r' =>
      simp only [hs, Except.map]
      rw [take_succ_append received z h]
  | case4 received z h =>
    rw [removeLoop, dif_neg h]
    rw [List.drop_of_length_le (by omega), List.take_of_length_le (by omega)]
    simp [unstuffFrom, Except.map]

/-- The structural deletion pass exactly inverts the structural insertion
pass. -/
theorem unstuffFrom_stuffFrom (l : List Nat) :
    unstuffFrom (stuffFrom l) = .ok l := by
  induction l with
  | nil => rfl
  | cons b rest ih =>
    by_cases hb : reservedByte b
    · rw [stuffFrom, if_pos hb, unstuffFrom_cons_pos 0 (stuffFrom rest) hb, ih]
      rfl
    · have hb' : reservedByte b = false := by simpa using hb
      rw [stuffFrom, if_neg hb, unstuffFrom_cons_neg _ hb', ih]
      rfl

theorem stuffFrom_getElem_zero (l : List Nat) : (stuffFrom l)[0]? = l[0]? := by
  cases l with
  | nil => rfl
  | cons b rest =>
    by_cases hb : reservedByte b
    · rw [stuffFrom, if_pos hb]
      simp
    · rw [stuffFrom, if_neg hb]
      simp

/-! ## Claim theorems -/

/-- **C1** Stuffing round-trip: for every byte sequence, removing fill bytes
(`LNetFrame.remove_fill_byte`) exactly inverts the fill-byte insertion
(`LNetFrame._skip_reserved_bytes`), and the insertion pass never changes the
byte at index 1 (the recorded SIZE byte). -/
theorem stuffing_roundtrip (seq : List Nat) :
    remove_fill_byte (skip_reserved_bytes seq) = .ok seq ∧
    (skip_reserved_bytes seq)[1]? = seq[1]? := by
  have hstuff : skip_reserved_bytes seq = seq.take 1 ++ stuffFrom (seq.drop 1) :=
    skipLoop_eq seq 1
  cases seq with
  | nil =>
    constructor
    · rw [show remove_fill_byte (skip_reserved_bytes []) =
          removeLoop (skip_reserved_bytes []) 1 from rfl, removeLoop_eq, hstuff]
      rfl
    · rw [hstuff]
      simp [stuffFrom]
  | cons h t =>
    have hstuff' : skip_reserved_bytes (h :: t) = h :: stuffFrom t := by
      simpa using hstuff
    constructor
    · rw [show remove_fill_byte (skip_reserved_bytes (h :: t)) =
          removeLoop (skip_reserved_bytes (h :: t)) 1 from rfl, removeLoop_eq, hstuff']
      simp [unstuffFrom_stuffFrom t, Except.map]
    · rw [hstuff']
      simpa using stuffFrom_getElem_zero t

/-- **C2** Checksum computation: `LNetFrame._crc_checksum` returns the sum
modulo 256, except that 0x55 is remapped to 0xAA and 0x02 to 0xFD; hence the
emitted CRC byte never equals a reserved value. -/
theorem crc_checksum_remap (l : List Nat) :
    (l.sum % 256 = 85 → crc_checksum l = 170) ∧
    (l.sum % 256 = 2 → crc_checksum l = 253) ∧
    (l.sum % 256 ≠ 85 → l.sum % 256 ≠ 2 → crc_checksum l = l.sum % 256) ∧
    crc_checksum l ≠ 85 ∧ crc_checksum l ≠ 2 := by
  by_cases h85 : l.sum % 256 = 85
  · simp [crc_checksum, h85]
  · by_cases h2 : l.sum % 256 = 2
    · simp [crc_checksum, h85, h2]
    · simp [crc_checksum, h85, h2]

/-- Witness for C2 at concrete inputs. -/
theorem crc_checksum_remap_witness :
    crc_checksum [83, 2] = 170 ∧ crc_checksum [1, 1] = 253 ∧ crc_checksum [7] = 7 := by
  refine ⟨(crc_checksum_remap [83, 2]).1 (by decide),
          (crc_checksum_remap [1, 1]).2.1 (by decide),
          (crc_checksum_remap [7]).2.2.1 (by decide) (by decide)⟩

theorem add_channel_length_le (s : ScopeSetup) (ch : ScopeChannel) (t : Bool)
    (hle : s.channels.length ≤ 9) : ((s.add_channel ch t).1).channels.length ≤ 9 := by
  unfold ScopeSetup.add_channel
  split_ifs with h1 h2 h3 h4 <;> simp_all

/-- **C3** (counterexample) Adding a 9th distinct channel to a `ScopeSetup`
holding 8 channels does *not* fail: `add_channel` returns 9 and the channel
map grows to 9 entries (the guard is `len(self.channels) > 8`). -/
theorem add_channel_ninth_succeeds :
    (setupWith8.add_channel (chanNamed "c9") false).2 = 9 ∧
    ((setupWith8.add_channel (chanNamed "c9") false).1).channels.length = 9 ∧
    (setupWith8.add_channel (chanNamed "c9") false).2 ≠ -1 := by
  decide

/-- **C3** (amended) The cap is 9, not 8: with more than 8 channels held, a
distinct new name is rejected with `-1` and no mutation; a single
`add_channel` call never pushes the count above 9; and no sequence of
`add_channel` calls starting from the fresh setup ever exceeds 9 channels. -/
theorem add_channel_cap :
    (∀ (s : ScopeSetup) (ch : ScopeChannel) (t : Bool),
       8 < s.channels.length → dictContains s.channels ch.name = false →
       s.add_channel ch t = (s, -1)) ∧
    (∀ (s : ScopeSetup) (ch : ScopeChannel) (t : Bool),
       s.channels.length ≤ 9 → ((s.add_channel ch t).1).channels.length ≤ 9) ∧
    (∀ calls : List (ScopeChannel × Bool),
       (applyAddChannels {} calls).channels.length ≤ 9) := by
  refine ⟨?_, add_channel_length_le, ?_⟩
  · intro s ch t hlen hcon
    unfold ScopeSetup.add_channel
    rw [if_pos (by simp [hcon]), if_pos hlen]
  · intro calls
    have h : ∀ (cs : List (ScopeChannel × Bool)) (s : ScopeSetup),
        s.channels.length ≤ 9 → (applyAddChannels s cs).channels.length ≤ 9 := by
      intro cs
      induction cs with
      | nil => intro s hs; simpa [applyAddChannels] using hs
      | cons c rest ih =>
        intro s hs
        have hstep := add_channel_length_le s c.1 c.2 hs
        simpa [applyAddChannels, List.foldl_cons] using ih _ hstep
    exact h _ {} (by simp)

/-- Witness for the amended C3 at concrete inputs. -/
theorem add_channel_cap_witness :
    ScopeSetup.add_channel setupWith9 (chanNamed "c10") false = (setupWith9, -1) ∧
    ((ScopeSetup.add_channel setupWith9 (chanNamed "c10") false).1).channels.length ≤ 9 ∧
    (applyAddChannels {} [((chanNamed "c1"), false)]).channels.length ≤ 9 :=
  ⟨add_channel_cap.1 setupWith9 (chanNamed "c10") false (by decide) (by decide),
   add_channel_cap.2.1 setupWith9 (chanNamed "c10") false (by decide),
   add_channel_cap.2.2 [((chanNamed "c1"), false)]⟩

/-- **C10** Removing a channel while the trigger is the empty default
(`channel = None`) first removes the entry from the map and then raises
`AttributeError` from `self.scope_trigger.channel.name`: the operation fails
on this input, with the state already mutated (one entry fewer). -/
theorem remove_channel_not_atomic (s : ScopeSetup) (name : String)
    (htrig : s.scope_trigger.channel = none)
    (hmem : dictContains s.channels name = true) :
    s.remove_channel name =
      .error (.attributeError,
        { s with channels := s.channels.eraseP (fun p => p.1 == name) }) ∧
    (s.channels.eraseP (fun p => p.1 == name)).length + 1 = s.channels.length := by
  constructor
  · unfold ScopeSetup.remove_channel
    rw [if_pos hmem]
    simp [htrig]
  · obtain ⟨p, hpmem, hpname⟩ := List.any_eq_true.mp hmem
    exact List.length_eraseP_add_one hpmem hpname

/-- Witness for C10 at a concrete setup. -/
theorem remove_channel_not_atomic_witness :
    ScopeSetup.remove_channel setupX "x" =
      .error (.attributeError,
        { setupX with channels := setupX.channels.eraseP (fun p => p.1 == "x") }) ∧
    (setupX.channels.eraseP (fun p => p.1 == "x")).length + 1 = setupX.channels.length :=
  remove_channel_not_atomic setupX "x" rfl (by decide)

/-- **C6** Word-width discovery: the dictionary keys with a leading zero
nibble are dead — Python `hex(0x0221)` is the string `"0x221"`, which never
equals the key `"0x0221"`, so `_Processor_id` returns `None` for the
processor id `0x0221` (bytes `low = 0x21`, `high = 0x02`) even though that id
is listed in the 16-bit table.  The non-padded keys (e.g. `0x8210`) do
resolve. -/
theorem Processor_id_dead_entry :
    FrameDeviceInfo.Processor_id 33 2 = none ∧
    processor_ids_16_bit.contains "0x0221" = true ∧
    pyHex ((2 <<< 8) ||| 33) = "0x221" ∧
    FrameDeviceInfo.Processor_id 16 130 = some 2 ∧
    FrameDeviceInfo.Processor_id 32 130 = some 4 := by
  decide

/-- **C5** PutRam status interpretation is inverted in
`FramePutRam._deserialize`: a fully validated PutRam response whose status
byte is zero yields the string `"No Error"` (not an empty result), and a
non-zero status byte yields `None` (not a description). -/
theorem putram_status_inverted :
    LNetFrame.deserialize 10 FramePutRam.deserialize_impl [85, 2, 0, 1, 10, 0, 98]
      = .ok (some "No Error") ∧
    FramePutRam.deserialize_impl [85, 2, 1, 10, 5, 103] = .ok none := by
  constructor
  · simp only [LNetFrame.deserialize, remove_fill_byte, removeLoop_eq]
    decide
  · decide

/-- **C4** (counterexample) A response frame passing the checksum with the
expected service id 9 and error code 64 at index 4 deserializes to `.ok none`
— exactly the same caller-visible result as error code 65: no value carrying
the code or its description reaches the caller. -/
theorem deserialize_device_error_returns_none :
    LNetFrame.deserialize 9 FrameGetRam.deserialize_impl [85, 2, 0, 1, 9, 64, 161]
      = .ok none ∧
    LNetFrame.deserialize 9 FrameGetRam.deserialize_impl [85, 2, 0, 1, 9, 65, 162]
      = .ok none := by
  constructor <;>
    (simp only [LNetFrame.deserialize, remove_fill_byte, removeLoop_eq]; decide)

/-- **C4** (amended) A non-zero error-code byte at index 4 of a frame that
passes the checksum and matches the expected service id is looked up in the
error table (for logging; code 64 maps to "Invalid Parameter ID"), and
deserialization aborts without service-specific parsing, returning `None` to
the caller — no error value carrying the code is returned. -/
theorem deserialize_device_error_aborts {α : Type} (sid : Nat)
    (impl : List Nat → Except PyErr (Option α))
    (received r : List Nat) (e : Nat) (desc : String)
    (hr : remove_fill_byte received = .ok r)
    (hint : frame_integrity r = .ok true)
    (hs : r[3]? = some sid)
    (he : r[4]? = some e)
    (hne : e ≠ 0)
    (hdesc : error_id e = .ok desc) :
    LNetFrame.deserialize sid impl received = .ok none ∧
    error_id 64 = .ok "Invalid Parameter ID" := by
  constructor
  · have hcheck : check_id sid r = .ok false := by
      unfold check_id
      simp only [hs, beq_self_eq_true, if_true, he]
      have hbe : (e == 0) = false := by simp [hne]
      simp [hbe, hdesc, bind, Except.bind, pure, Except.pure]
    simp [LNetFrame.deserialize, hr, hint, hcheck, bind, Except.bind, pure, Except.pure]
  · decide

/-- Witness for the amended C4 at the concrete error-64 frame. -/
theorem deserialize_device_error_aborts_witness :
    LNetFrame.deserialize 9 FrameGetRam.deserialize_impl [85, 2, 0, 1, 9, 64, 161]
      = .ok none ∧
    error_id 64 = .ok "Invalid Parameter ID" :=
  deserialize_device_error_aborts 9 FrameGetRam.deserialize_impl
    [85, 2, 0, 1, 9, 64, 161] [85, 2, 1, 9, 64, 161] 64 "Invalid Parameter ID"
    (by simp only [remove_fill_byte, removeLoop_eq]; decide)
    (by decide) (by decide) (by decide) (by decide) (by decide)

/-- **C7** Handshake precondition: on an uninitialized orchestrator
(`device_info = None`), `get_ram` and `put_ram` fail with `AttributeError`
(from `self.device_info.uc_width`) — the `RuntimeError` precondition failure
named in their docstrings is constructed but never raised. -/
theorem get_put_ram_uninitialized (transport : List Nat → List Nat)
    (address data_type size : Nat) (value : List Nat) :
    LNet.get_ram none transport address data_type = .error .attributeError ∧
    LNet.put_ram none transport address size value = .error .attributeError ∧
    PyErr.attributeError ≠ PyErr.runtimeError :=
  ⟨rfl, rfl, by decide⟩

/-- **C8** (counterexample) The trigger-delay multiplier is
`get_dataset_size()`, which sums the byte widths of **all** channels in the
map — `setupAB` has an enabled 2-byte channel and a *disabled* 4-byte
channel, so with logical delay count 1 the serialized delay bytes are
`[6, 0, 0, 0]`, not the `[2, 0, 0, 0]` the enabled-only sum of the claim
would give; the `[6, 0, 0, 0]` appears verbatim in the SaveParameter
buffer. -/
theorem trigger_delay_counts_disabled_channels :
    ScopeSetup.trigger_delay_to_bytes setupAB = .ok [6, 0, 0, 0] ∧
    setupAB.get_dataset_size = 6 ∧
    enabledDatasetSizeSpec setupAB = 2 ∧
    to_bytes_signed 4 (setupAB.scope_trigger.trigger_delay
      * (enabledDatasetSizeSpec setupAB : Int)) = .ok [2, 0, 0, 0] ∧
    ScopeSetup.get_buffer setupAB =
      .ok [1, 2, 1, 0, 0, 0, 0, 0, 0, 2, 178, 0, 0, 0, 0, 0, 0, 0, 6, 0, 0, 0, 1, 0] := by
  decide

/-- **C8** (amended) For a `ScopeSetup` with at least one channel and a bound
trigger channel (and level and delay within the encodable ranges), the
SaveParameter buffer ends with the trigger block, in which the serialized
trigger delay is the logical delay count multiplied by the sum of the byte
widths of **all** channels in the map (enabled or not), encoded as 4
little-endian signed bytes. -/
theorem get_buffer_trigger_delay (s : ScopeSetup) (c : ScopeChannel) (lvl : List Nat)
    (hc : s.scope_trigger.channel = some c)
    (hne : s.channels.isEmpty = false)
    (hlvl : to_bytes_signed c.data_type_size s.scope_trigger.trigger_level = .ok lvl)
    (hrange : -((2 : Int) ^ (8 * 4 - 1)) ≤ s.scope_trigger.trigger_delay
                * (s.get_dataset_size : Int)
              ∧ s.scope_trigger.trigger_delay * (s.get_dataset_size : Int)
                < (2 : Int) ^ (8 * 4 - 1)) :
    s.get_buffer = .ok
      ([s.scope_state, s.channels.length, s.sample_time_factor &&& 255,
        (s.sample_time_factor >>> 8) &&& 255]
       ++ channelsBuffer s.channels
       ++ [128 + (if c.is_signed then 32 else 0) + (if c.is_integer then 0 else 16)
             + c.data_type_size,
           c.source_type, c.source_location &&& 255, (c.source_location >>> 8) &&& 255,
           (c.source_location >>> 16) &&& 255, (c.source_location >>> 24) &&& 255]
       ++ lvl
       ++ natLeBytes 4 ((s.scope_trigger.trigger_delay * (s.get_dataset_size : Int)
             % ((2 : Int) ^ (8 * 4))).toNat)
       ++ [s.scope_trigger.trigger_edge, s.scope_trigger.trigger_mode]) := by
  have hdly : s.trigger_delay_to_bytes = .ok
      (natLeBytes 4 ((s.scope_trigger.trigger_delay * (s.get_dataset_size : Int)
        % ((2 : Int) ^ (8 * 4))).toNat)) := by
    unfold ScopeSetup.trigger_delay_to_bytes to_bytes_signed
    rw [if_neg (by norm_num), if_pos hrange]
  have htdt : s.get_trigger_data_type = .ok
      (128 + (if c.is_signed then 32 else 0) + (if c.is_integer then 0 else 16)
       + c.data_type_size) := by
    unfold ScopeSetup.get_trigger_data_type
    rw [hc]
  have hlvl' : s.trigger_level_to_bytes = .ok lvl := by
    unfold ScopeSetup.trigger_level_to_bytes
    rw [hc]
    exact hlvl
  have htrig : s.get_scope_trigger_buffer = .ok
      ([128 + (if c.is_signed then 32 else 0) + (if c.is_integer then 0 else 16)
          + c.data_type_size,
        c.source_type, c.source_location &&& 255, (c.source_location >>> 8) &&& 255,
        (c.source_location >>> 16) &&& 255, (c.source_location >>> 24) &&& 255]
       ++ lvl
       ++ natLeBytes 4 ((s.scope_trigger.trigger_delay * (s.get_dataset_size : Int)
            % ((2 : Int) ^ (8 * 4))).toNat)
       ++ [s.scope_trigger.trigger_edge, s.scope_trigger.trigger_mode]) := by
    unfold ScopeSetup.get_scope_trigger_buffer
    rw [hc]
    simp [htdt, hlvl', hdly, bind, Except.bind, pure, Except.pure]
  unfold ScopeSetup.get_buffer
  rw [hne]
  simp [htrig, bind, Except.bind, pure, Except.pure]

/-- Witness for the amended C8 at the concrete setup `setupAB`. -/
theorem get_buffer_trigger_delay_witness :
    ScopeSetup.get_buffer setupAB =
      .ok [1, 2, 1, 0, 0, 0, 0, 0, 0, 2, 178, 0, 0, 0, 0, 0, 0, 0, 6, 0, 0, 0, 1, 0] := by
  rw [get_buffer_trigger_delay setupAB chA [0, 0] rfl (by decide) (by decide)
      ⟨by decide, by decide⟩]
  decide

/-- **C9** Transaction mutual exclusion fails: `LNet._read_data` performs the
write-then-read exchange with no lock, so the schedule `raceTrace` — a legal
interleaving of two concurrent `_read_data` transactions — drives the mock
interface's concurrent-access count to 2, violating the at-most-one
in-flight-transaction property required by `test_thread_safety.py`. -/
theorem read_data_unlocked_race :
    IsInterleaving (read_data_events 0) (read_data_events 1) raceTrace ∧
    maxConcurrent raceTrace = 2 := by
  constructor
  · exact .left (.right (.left (.right (.left (.left (.right (.right .nil)))))))
  · decide
